import Mathlib

/-!
Shallow embedding of `src/videoapp/views.py` (Zeecoworld/video-ads): a HeyGen
text-to-video client, its completion-polling waiter, and the Django view
handlers built on them.  Machine time is modelled discretely: the waiter's
elapsed clock advances by `poll_interval` at each `time.sleep`, and each
status call is instantaneous, so after `k` non-returning iterations the
elapsed time is `k * poll_interval`, exactly the quantity the loop guard
`time.time() - start_time < max_wait` compares.
-/

/-- The JSON value found under `data['error']` in a status response.  The
provider may send an object (with an optional `message` key) or a plain
string; `views.py` line 195 calls `.get('message', ...)` on it, which raises
`AttributeError` when it is a string. -/
inductive JErr where
  | str (s : String)
  | obj (message : Option String)
  deriving DecidableEq

/-- The `data` object of a provider status response (`result.get('data', {})`),
with the keys `views.py` reads: `status`, `video_url`, `thumbnail_url`,
`duration`, `error`.  A missing key is `none`. -/
structure JData where
  status : Option String := none
  video_url : Option String := none
  thumbnail_url : Option String := none
  duration : Option Int := none
  error : Option JErr := none
  deriving DecidableEq

/-- A decoded provider status response: `code`, `message`, `data` as read by
`wait_for_completion` (`result.get('code')`, `result.get('message', ...)`,
`result.get('data', {})`). -/
structure StatusResp where
  code : Option Int := none
  message : Option String := none
  data : Option JData := none
  deriving DecidableEq

/-- The normalized outcome dictionary returned by `wait_for_completion`.
Fields absent from a given return site stay `none`. -/
structure Outcome where
  success : Bool
  status : String
  error : Option String := none
  video_url : Option String := none
  thumbnail_url : Option String := none
  duration : Option Int := none
  deriving DecidableEq

/-- The timeout outcome built after the polling loop exits on the deadline
(`views.py` lines 207-211). -/
def timeoutOutcome : Outcome :=
  { success := false, error := some "Video generation timed out", status := "timeout" }

/-- Result of one run of the waiter: the outcome plus how many status calls
(`check_status` invocations) were issued. -/
structure WaitResult where
  outcome : Outcome
  calls : Nat
  deriving DecidableEq

/-- One iteration of the `try:` body of `wait_for_completion` applied to the
result of `self.check_status` (which either raises, `Except.error`, or returns
a decoded response).  `some o` means the iteration returned outcome `o`;
`none` means the iteration fell through to `time.sleep(poll_interval)` and the
loop continues: either the call raised (line 202), or the status was
non-terminal (line 199), or `data['error']` was a plain string so
`error_info.get('message', ...)` raised `AttributeError`, caught by the same
`except` (line 202). -/
def stepResult (res : Except String StatusResp) : Option Outcome :=
  match res with
  | Except.error _ => none
  | Except.ok r =>
    if r.code ≠ some 100 then
      some { success := false, error := some (r.message.getD "Unknown error"),
             status := "failed" }
    else
      let data := r.data.getD {}
      if data.status = some "completed" then
        some { success := true, video_url := data.video_url,
               thumbnail_url := data.thumbnail_url, duration := data.duration,
               status := "completed" }
      else if data.status = some "failed" then
        match data.error.getD (JErr.obj none) with
        | JErr.obj m =>
          some { success := false, error := some (m.getD "Video generation failed"),
                 status := "failed" }
        | JErr.str _ => none
      else
        none

/-- The polling loop of `wait_for_completion`, with the provider abstracted as
the sequence `p` of `check_status` results.  `k` is the number of status calls
issued so far, `elapsed` the model clock.  `fuel` bounds the recursion; the
result is fuel-independent for every fuel that covers the wall-clock
deadline (see `waitFrom_fuel_congr`), which the default fuel of
`wait_for_completion` does whenever `poll_interval ≥ 1`. -/
def waitFrom (p : Nat → Except String StatusResp) (max_wait poll_interval : Nat) :
    Nat → Nat → Nat → WaitResult
  | 0, k, _ => ⟨timeoutOutcome, k⟩
  | fuel + 1, k, elapsed =>
    if elapsed < max_wait then
      match stepResult (p k) with
      | some o => ⟨o, k + 1⟩
      | none => waitFrom p max_wait poll_interval fuel (k + 1) (elapsed + poll_interval)
    else
      ⟨timeoutOutcome, k⟩

/-- `HeyGenAPIClient.wait_for_completion` (`views.py` lines 159-211) over a
provider response sequence `p`, with the source's defaults

`max_wait=300`, `poll_interval=5`. -/
def wait_for_completion (p : Nat → Except String StatusResp)
    (max_wait : Nat := 300) (poll_interval : Nat := 5) : WaitResult :=
  waitFrom p max_wait poll_interval (max_wait + 1) 0 0

/-- Python truthiness of an optional string, as in `if not prompt:` or
`if not api_key:`: `None` and the empty string are falsy. -/
def isBlank : Option String → Bool
  | none => true
  | some s => s == ""

/-- The `headers` dictionary built in `HeyGenAPIClient.__init__`
(`views.py` lines 37-41). -/
structure HGHeaders where
  x_api_key : String
  content_type : String
  accept : String
  deriving DecidableEq

/-- The `HeyGenAPIClient` instance state set by `__init__`: `self.api_key`
(read from the `HYGEN_API_KEY` environment variable, NOT from the
constructor argument), `self.base_url`, and `self.headers` (which uses the
constructor argument `api_key`). -/
structure HeyGenAPIClient where
  api_key : Option String
  base_url : String
  headers : HGHeaders
  deriving DecidableEq

/-- `HeyGenAPIClient.__init__(self, api_key)` (`views.py` lines 34-41), with
the ambient environment variable `HYGEN_API_KEY` passed explicitly as
`env_hygen_api_key`. -/
def clientInit (env_hygen_api_key : Option String) (api_key : String) : HeyGenAPIClient :=
  { api_key := env_hygen_api_key
    base_url := "https://api.heygen.com"
    headers := { x_api_key := api_key
                 content_type := "application/json"
                 accept := "application/json" } }

/-- The JSON payload built by `HeyGenAPIClient.generate_video`
(`views.py` lines 81-101), flattened to the fields the source writes.
`character_type` and `voice_type` model the constant `"type"` keys. -/
structure GeneratePayload where
  character_type : String
  avatar_id : String
  avatar_style : String
  voice_type : String
  input_text : String
  voice_id : String
  width : Nat
  height : Nat
  deriving DecidableEq

/-- `if not avatar_id: avatar_id = default` (`views.py` lines 76-79):
the default is substituted when the argument is `None` or empty. -/
def defaultIfBlank (x : Option String) (d : String) : String :=
  match x with
  | none => d
  | some s => if s == "" then d else s

/-- Payload construction of `HeyGenAPIClient.generate_video` (`views.py`
lines 67-101): default avatar/voice substitution and the
`"input_text": text[:1500]` truncation. -/
def generate_video_payload (text : String) (avatar_id voice_id : Option String)
    (width : Nat := 1280) (height : Nat := 720) : GeneratePayload :=
  { character_type := "avatar"
    avatar_id := defaultIfBlank avatar_id "Lina_Dress_Sitting_Side_public"
    avatar_style := "normal"
    voice_type := "text"
    input_text := text.take 1500
    voice_id := defaultIfBlank voice_id "119caed25533477ba63822d5d1552d25"
    width := width
    height := height }

/-- An outbound HTTP request as assembled by a `HeyGenAPIClient` method:
method, URL, the client's headers, and (when present) the generate payload or
the `video_id` query parameter. -/
structure OutRequest where
  method : String
  url : String
  headers : HGHeaders
  payload : Option GeneratePayload := none
  video_id_param : Option String := none
  deriving DecidableEq

/-- The request issued by `HeyGenAPIClient.list_avatars` (`views.py`
lines 43-48). -/
def list_avatars_request (c : HeyGenAPIClient) : OutRequest :=
  { method := "GET", url := c.base_url ++ "/v2/avatars", headers := c.headers }

/-- The request issued by `HeyGenAPIClient.list_voices` (`views.py`
lines 55-60). -/
def list_voices_request (c : HeyGenAPIClient) : OutRequest :=
  { method := "GET", url := c.base_url ++ "/v2/voices", headers := c.headers }

/-- The request issued by `HeyGenAPIClient.generate_video` (`views.py`
lines 73-112). -/
def generate_video_request (c : HeyGenAPIClient) (text : String)
    (avatar_id voice_id : Option String) (width height : Nat) : OutRequest :=
  { method := "POST", url := c.base_url ++ "/v2/video/generate", headers := c.headers
    payload := some (generate_video_payload text avatar_id voice_id width height) }

/-- The request issued by `HeyGenAPIClient.check_status` (`views.py`
lines 134-147). -/
def check_status_request (c : HeyGenAPIClient) (video_id : String) : OutRequest :=
  { method := "GET", url := c.base_url ++ "/v1/video_status.get", headers := c.headers
    video_id_param := some video_id }

/-- A JSON response serialized by a view handler, flattened to the keys the
source writes, plus the HTTP status code. -/
structure ViewResponse where
  success : Bool
  http_status : Nat := 200
  error : Option String := none
  video_url : Option String := none
  thumbnail_url : Option String := none
  duration : Option Int := none
  video_id : Option String := none
  avatars : Option (List String) := none
  voices : Option (List String) := none
  deriving DecidableEq

/-- The decoded JSON body of a submit request as read by the `generate_video`
view (`data.get('prompt')`, `data.get('avatar_id')`, `data.get('voice_id')`). -/
structure GenBody where
  prompt : Option String := none
  avatar_id : Option String := none
  voice_id : Option String := none
  deriving DecidableEq

/-- The `data` object of a submission response, read as
`generation_result.get('data', {}).get('video_id')`. -/
structure GenData where
  video_id : Option String := none
  deriving DecidableEq

/-- A decoded submission response from `HeyGenAPIClient.generate_video`. -/
structure GenResult where
  data : Option GenData := none
  deriving DecidableEq

/-- The `generate_video` Django view (`views.py` lines 214-317).  Inputs:
`heygen_key` is the `HEYGEN_API_KEY` environment variable; `body` is the JSON
parse of the request body (`none` = `json.JSONDecodeError`); `submitResult`
is what `client.generate_video` does (raise with a message, or return a
decoded response); `trace` is the provider status sequence consumed by
`wait_for_completion`.  Returns the serialized response and the number of
outbound provider calls issued. -/
def generate_video_view (heygen_key : Option String) (body : Option GenBody)
    (submitResult : Except String GenResult)
    (trace : Nat → Except String StatusResp) : ViewResponse × Nat :=
  match body with
  | none => ({ success := false, http_status := 400,
               error := some "Invalid JSON in request body" }, 0)
  | some data =>
    if isBlank data.prompt then
      ({ success := false, http_status := 400, error := some "Prompt is required" }, 0)
    else if 1500 < (data.prompt.getD "").length then
      ({ success := false, http_status := 400,
         error := some "Text must be less than 1500 characters" }, 0)
    else if isBlank heygen_key then
      ({ success := false, http_status := 500,
         error := some "API key not configured. Add HEYGEN_API_KEY to your .env file" }, 0)
    else
      match submitResult with
      | Except.error msg =>
        ({ success := false, http_status := 500,
           error := some ("Internal server error: " ++ msg) }, 1)
      | Except.ok gr =>
        let vid := (gr.data.getD {}).video_id
        if isBlank vid then
          ({ success := false, http_status := 500,
             error := some "No video ID received from API" }, 1)
        else
          let w := wait_for_completion trace 300 5
          if w.outcome.success then
            ({ success := true, http_status := 200, video_url := w.outcome.video_url,
               thumbnail_url := w.outcome.thumbnail_url,
               duration := w.outcome.duration, video_id := vid }, 1 + w.calls)
          else
            ({ success := false, http_status := 500, error := w.outcome.error,
               video_id := vid }, 1 + w.calls)

/-- The `data` object of a catalog response
(`result.get('data', {}).get('avatars', [])`, likewise `'voices'`); entries
are kept opaque as strings. -/
structure CatalogData where
  avatars : List String := []
  voices : List String := []
  deriving DecidableEq

/-- A decoded catalog response as read by the catalog views: the `error` key
and the `data` object. -/
structure CatalogResp where
  error : Option String := none
  data : Option CatalogData := none
  deriving DecidableEq

/-- The `list_avatars` Django view (`views.py` lines 320-350).
`providerResp` is what `client.list_avatars` returns: `none` models the
client swallowing an exception and returning `None`; in either case one
outbound call was attempted. -/
def list_avatars_view (heygen_key : Option String)
    (providerResp : Option CatalogResp) : ViewResponse × Nat :=
  if isBlank heygen_key then
    ({ success := false, http_status := 500, error := some "API key not configured" }, 0)
  else
    match providerResp with
    | some r =>
      match r.error with
      | none => ({ success := true, http_status := 200,
                   avatars := some (r.data.getD {}).avatars }, 1)
      | some _ => ({ success := false, http_status := 500,
                     error := some "Failed to fetch avatars" }, 1)
    | none => ({ success := false, http_status := 500,
                 error := some "Failed to fetch avatars" }, 1)

/-- The `list_voices` Django view (`views.py` lines 353-383), mirroring
`list_avatars`. -/
def list_voices_view (heygen_key : Option String)
    (providerResp : Option CatalogResp) : ViewResponse × Nat :=
  if isBlank heygen_key then
    ({ success := false, http_status := 500, error := some "API key not configured" }, 0)
  else
    match providerResp with
    | some r =>
      match r.error with
      | none => ({ success := true, http_status := 200,
                   voices := some (r.data.getD {}).voices }, 1)
      | some _ => ({ success := false, http_status := 500,
                     error := some "Failed to fetch voices" }, 1)
    | none => ({ success := false, http_status := 500,
                 error := some "Failed to fetch voices" }, 1)

/-- Modelled from the spec: the async-mode status endpoint ("Status check
(async mode): GET with job handle in the path") belongs to the second
provider integration, which is not under src/.  Per the spec, a missing
provider API key "must short-circuit every operation with a 'not configured'
error before any network call"; otherwise the handler issues one status call
and relays the provider's answer. -/
def video_status_view (heygen_key : Option String)
    (statusResult : Except String StatusResp) : ViewResponse × Nat :=
  if isBlank heygen_key then
    ({ success := false, http_status := 500, error := some "API key not configured" }, 0)
  else
    match statusResult with
    | Except.error e => ({ success := false, http_status := 500, error := some e }, 1)
    | Except.ok _ => ({ success := true, http_status := 200 }, 1)

/-- The aspect ratios the spec enumerates for the second integration's
submit endpoint. -/
def allowedAspectRatios : List String := ["16:9", "9:16", "1:1", "4:3"]

/-- Modelled from the spec: the decoded JSON body of the second provider
integration's submit endpoint, which is not under src/:
`{ prompt, duration?, aspect_ratio?, style? }`. -/
structure SubmitRequest where
  prompt : Option String := none
  duration : Option Int := none
  aspect_ratio : Option String := none
  style : Option String := none
  deriving DecidableEq

/-- `duration` present and outside the spec's range [3, 10]. -/
def durationInvalid : Option Int → Bool
  | none => false
  | some d => d < 3 || 10 < d

/-- `aspect_ratio` present and outside the spec's enumerated set. -/
def aspectInvalid : Option String → Bool
  | none => false
  | some a => !(allowedAspectRatios.contains a)

/-- Modelled from the spec: the second provider integration's submit handler
(prompt/duration/aspect-ratio/style variant), which is not under src/.  The
spec requires: "Validates: prompt required and ≤1500 chars; duration range;
aspect ratio membership. Violations return a client-error response with a
descriptive message, without contacting the provider", then the
configuration check, then the outbound submission (counted as one call; the
submission response itself is immaterial to the validation claims). -/
def submit_handler (api_key : Option String) (req : SubmitRequest) : ViewResponse × Nat :=
  if isBlank req.prompt then
    ({ success := false, http_status := 400, error := some "Prompt is required" }, 0)
  else if 1500 < (req.prompt.getD "").length then
    ({ success := false, http_status := 400,
       error := some "Text must be less than 1500 characters" }, 0)
  else if durationInvalid req.duration then
    ({ success := false, http_status := 400,
       error := some "Duration must be between 3 and 10 seconds" }, 0)
  else if aspectInvalid (SubmitRequest.aspect_ratio req) then
    ({ success := false, http_status := 400,
       error := some "Aspect ratio must be one of 16:9, 9:16, 1:1, 4:3" }, 0)
  else if isBlank api_key then
    ({ success := false, http_status := 500, error := some "API key not configured" }, 0)
  else
    ({ success := true, http_status := 200 }, 1)

/-- A provider that always answers `code=100, status='processing'`. -/
def procTrace : Nat → Except String StatusResp := fun _ =>
  Except.ok { code := some 100, data := some { status := some "processing" } }

/-- A provider whose first status call raises a transport error and whose
second call reports completion with a media URL. -/
def flakyTrace : Nat → Except String StatusResp := fun k =>
  if k = 0 then Except.error "connection reset"
  else Except.ok { code := some 100
                   data := some { status := some "completed"
                                  video_url := some "https://cdn.example/v.mp4"
                                  thumbnail_url := some "https://cdn.example/t.jpg"
                                  duration := some 8 } }

/-- A provider that always answers `status='failed'` with the error field as
the plain string `"x"` (the shape the spec's example `error="x"` names). -/
def failedStrTrace : Nat → Except String StatusResp := fun _ =>
  Except.ok { code := some 100
              data := some { status := some "failed", error := some (JErr.str "x") } }

/-- A provider that always answers `status='failed'` with an error object
whose message is `"x"`. -/
def failedObjTrace : Nat → Except String StatusResp := fun _ =>
  Except.ok { code := some 100
              data := some { status := some "failed"
                             error := some (JErr.obj (some "x")) } }

/-- A provider that always answers `code=400` with a message. -/
def badCodeTrace : Nat → Except String StatusResp := fun _ =>
  Except.ok { code := some 400, message := some "Bad video id" }

/-- A provider that always answers `status='completed'` with no `video_url`
key at all. -/
def completedNoUrlTrace : Nat → Except String StatusResp := fun _ =>
  Except.ok { code := some 100, data := some { status := some "completed" } }

/-- A provider that always answers `status='completed'` with a media URL. -/
def completedUrlTrace : Nat → Except String StatusResp := fun _ =>
  Except.ok { code := some 100
              data := some { status := some "completed"
                             video_url := some "https://cdn.example/v.mp4" } }

/-- A 1501-character prompt. -/
def longText : String := String.mk (List.replicate 1501 'a')

theorem waitFrom_zero (p : Nat → Except String StatusResp) (mw poll k e : Nat) :
    waitFrom p mw poll 0 k e = ⟨timeoutOutcome, k⟩ := rfl

theorem waitFrom_succ (p : Nat → Except String StatusResp) (mw poll fuel k e : Nat) :
    waitFrom p mw poll (fuel + 1) k e =
      if e < mw then
        match stepResult (p k) with
        | some o => ⟨o, k + 1⟩
        | none => waitFrom p mw poll fuel (k + 1) (e + poll)
      else
        ⟨timeoutOutcome, k⟩ := rfl

/-- Every outcome a single iteration can return carries status `completed`
or `failed`. -/
theorem stepResult_status (res : Except String StatusResp) (o : Outcome)
    (h : stepResult res = some o) : o.status = "completed" ∨ o.status = "failed" := by
  cases res with
  | error e => exact absurd h (by simp [stepResult])
  | ok r =>
    simp only [stepResult] at h
    split at h
    · rw [Option.some.injEq] at h; subst h; exact Or.inr rfl
    · split at h
      · rw [Option.some.injEq] at h; subst h; exact Or.inl rfl
      · split at h
        · split at h
          · rw [Option.some.injEq] at h; subst h; exact Or.inr rfl
          · exact Option.noConfusion h
        · exact Option.noConfusion h

/-- A successful iteration outcome can only come from a decoded response with
`code = 100` and `status = 'completed'`; its status is `completed` and its
`video_url` is carried over verbatim from the response. -/
theorem stepResult_success (res : Except String StatusResp) (o : Outcome)
    (h : stepResult res = some o) (hs : o.success = true) :
    ∃ r, res = Except.ok r ∧ r.code = some 100 ∧
      JData.status (r.data.getD {}) = some "completed" ∧
      o.status = "completed" ∧
      o.video_url = JData.video_url (r.data.getD {}) := by
  cases res with
  | error e => exact absurd h (by simp [stepResult])
  | ok r =>
    simp only [stepResult] at h
    split at h
    · rw [Option.some.injEq] at h; subst h; simp at hs
    · rename_i hcond
      have hcode : r.code = some 100 := not_not.mp hcond
      split at h
      · rename_i hcomp
        rw [Option.some.injEq] at h; subst h
        exact ⟨r, rfl, hcode, hcomp, rfl, rfl⟩
      · split at h
        · split at h
          · rw [Option.some.injEq] at h; subst h; simp at hs
          · exact Option.noConfusion h
        · exact Option.noConfusion h

/-- Every exit of the polling loop carries a terminal status. -/
theorem waitFrom_terminal (p : Nat → Except String StatusResp) (mw poll : Nat) :
    ∀ fuel k e,
      (waitFrom p mw poll fuel k e).outcome.status = "completed" ∨
      (waitFrom p mw poll fuel k e).outcome.status = "failed" ∨
      (waitFrom p mw poll fuel k e).outcome.status = "timeout" := by
  intro fuel
  induction fuel with
  | zero => intro k e; exact Or.inr (Or.inr rfl)
  | succ n ih =>
    intro k e
    rw [waitFrom_succ]
    by_cases hm : e < mw
    · rw [if_pos hm]
      cases hst : stepResult (p k) with
      | some o =>
        simp only [hst]
        rcases stepResult_status (p k) o hst with h | h
        · exact Or.inl h
        · exact Or.inr (Or.inl h)
      | none =>
        simp only [hst]
        exact ih (k + 1) (e + poll)
    · rw [if_neg hm]
      exact Or.inr (Or.inr rfl)

/-- If no iteration ever returns, every exit of the loop is the timeout
outcome. -/
theorem waitFrom_nonterm_outcome (p : Nat → Except String StatusResp) (mw poll : Nat)
    (hnt : ∀ j, stepResult (p j) = none) :
    ∀ fuel k e, (waitFrom p mw poll fuel k e).outcome = timeoutOutcome := by
  intro fuel
  induction fuel with
  | zero => intro k e; rfl
  | succ n ih =>
    intro k e
    rw [waitFrom_succ]
    by_cases hm : e < mw
    · rw [if_pos hm]
      simp only [hnt k]
      exact ih (k + 1) (e + poll)
    · rw [if_neg hm]

/-- The loop issues at most `k + fuel` status calls. -/
theorem waitFrom_calls_le (p : Nat → Except String StatusResp) (mw poll : Nat) :
    ∀ fuel k e, (waitFrom p mw poll fuel k e).calls ≤ k + fuel := by
  intro fuel
  induction fuel with
  | zero => intro k e; exact Nat.le_refl k
  | succ n ih =>
    intro k e
    rw [waitFrom_succ]
    by_cases hm : e < mw
    · rw [if_pos hm]
      cases hst : stepResult (p k) with
      | some o =>
        simp only [hst]
        show k + 1 ≤ k + (n + 1)
        omega
      | none =>
        simp only [hst]
        exact le_trans (ih (k + 1) (e + poll)) (by omega)
    · rw [if_neg hm]
      show k ≤ k + (n + 1)
      omega

/-- If no iteration ever returns and the fuel covers the deadline, the loop
only exits once the model clock (`calls * poll_interval`) has reached
`max_wait`. -/
theorem waitFrom_timeout_elapsed (p : Nat → Except String StatusResp) (mw poll : Nat)
    (hnt : ∀ j, stepResult (p j) = none) :
    ∀ fuel k e, mw ≤ e + fuel * poll → e ≤ k * poll →
      mw ≤ (waitFrom p mw poll fuel k e).calls * poll := by
  intro fuel
  induction fuel with
  | zero =>
    intro k e h1 h2
    have he : mw ≤ e := by simpa using h1
    exact le_trans he h2
  | succ n ih =>
    intro k e h1 h2
    rw [waitFrom_succ]
    by_cases hm : e < mw
    · rw [if_pos hm]
      simp only [hnt k]
      refine ih (k + 1) (e + poll) ?_ ?_
      · rw [Nat.succ_mul] at h1
        linarith
      · rw [Nat.succ_mul]
        exact Nat.add_le_add_right h2 poll
    · rw [if_neg hm]
      exact le_trans (Nat.le_of_not_lt hm) h2

/-- Fuel-independence of the polling loop: any two fuels that cover the
wall-clock deadline give the same run — the loop genuinely terminates within
the deadline rather than being cut off by the recursion bound. -/
theorem waitFrom_fuel_congr (p : Nat → Except String StatusResp) (mw poll : Nat) :
    ∀ f1 f2 k e, mw ≤ e + f1 * poll → mw ≤ e + f2 * poll →
      waitFrom p mw poll f1 k e = waitFrom p mw poll f2 k e := by
  intro f1
  induction f1 with
  | zero =>
    intro f2 k e h1 h2
    have he : mw ≤ e := by simpa using h1
    cases f2 with
    | zero => rfl
    | succ m =>
      rw [waitFrom_zero, waitFrom_succ, if_neg (Nat.not_lt.mpr he)]
  | succ n ih =>
    intro f2 k e h1 h2
    cases f2 with
    | zero =>
      have he : mw ≤ e := by simpa using h2
      rw [waitFrom_zero, waitFrom_succ, if_neg (Nat.not_lt.mpr he)]
    | succ m =>
      rw [waitFrom_succ, waitFrom_succ]
      by_cases hm : e < mw
      · rw [if_pos hm, if_pos hm]
        cases hst : stepResult (p k) with
        | some o => simp only [hst]
        | none =>
          simp only [hst]
          refine ih m (k + 1) (e + poll) ?_ ?_
          · rw [Nat.succ_mul] at h1
            linarith
          · rw [Nat.succ_mul] at h2
            linarith
      · rw [if_neg hm, if_neg hm]

/-- Any exit of the loop with `success = true` traces back to a provider
response with `code = 100` and `status = 'completed'`, whose `video_url` the
outcome carries verbatim. -/
theorem waitFrom_success (p : Nat → Except String StatusResp) (mw poll : Nat) :
    ∀ fuel k e,
      (waitFrom p mw poll fuel k e).outcome.success = true →
      (waitFrom p mw poll fuel k e).outcome.status = "completed" ∧
      ∃ j r, p j = Except.ok r ∧ r.code = some 100 ∧
        JData.status (r.data.getD {}) = some "completed" ∧
        (waitFrom p mw poll fuel k e).outcome.video_url =
          JData.video_url (r.data.getD {}) := by
  intro fuel
  induction fuel with
  | zero =>
    intro k e hs
    rw [waitFrom_zero] at hs
    simp [timeoutOutcome] at hs
  | succ n ih =>
    intro k e hs
    rw [waitFrom_succ] at hs ⊢
    by_cases hm : e < mw
    · rw [if_pos hm] at hs ⊢
      cases hst : stepResult (p k) with
      | some o =>
        simp only [hst] at hs ⊢
        obtain ⟨r, hres, hcode, hcomp, hstat, hurl⟩ := stepResult_success (p k) o hst hs
        exact ⟨hstat, k, r, hres, hcode, hcomp, hurl⟩
      | none =>
        simp only [hst] at hs ⊢
        exact ih (k + 1) (e + poll) hs
    · rw [if_neg hm] at hs ⊢
      simp [timeoutOutcome] at hs

/-- C1: for every run of `wait_for_completion` — any job handle, any sequence
of provider status responses, any `max_wait` and `poll_interval` — the
returned outcome's status is in the terminal set (`completed`, `failed`,
`timeout`), and is never `pending` or `processing`. -/
theorem C1_waiter_returns_terminal_status (p : Nat → Except String StatusResp)
    (mw poll : Nat) :
    ((wait_for_completion p mw poll).outcome.status = "completed" ∨
     (wait_for_completion p mw poll).outcome.status = "failed" ∨
     (wait_for_completion p mw poll).outcome.status = "timeout") ∧
    (wait_for_completion p mw poll).outcome.status ≠ "pending" ∧
    (wait_for_completion p mw poll).outcome.status ≠ "processing" := by
  have h : (wait_for_completion p mw poll).outcome.status = "completed" ∨
      (wait_for_completion p mw poll).outcome.status = "failed" ∨
      (wait_for_completion p mw poll).outcome.status = "timeout" :=
    waitFrom_terminal p mw poll (mw + 1) 0 0
  refine ⟨h, ?_, ?_⟩ <;> rcases h with h | h | h <;> rw [h] <;> decide

/-- C2: against a provider that never reaches a terminal state (always
`code=100, status='processing'`), the waiter exits with the timeout outcome
(`success=false, status='timeout'`), it only does so once the elapsed model
clock (`calls * poll_interval`) has reached `max_wait`, and it issues at most
`max_wait + 1` status calls rather than looping forever. -/
theorem C2_always_processing_times_out (p : Nat → Except String StatusResp)
    (mw poll : Nat) (hpoll : 1 ≤ poll)
    (hp : ∀ j, ∃ r, p j = Except.ok r ∧ r.code = some 100 ∧
          JData.status (r.data.getD {}) = some "processing") :
    (wait_for_completion p mw poll).outcome = timeoutOutcome ∧
    mw ≤ (wait_for_completion p mw poll).calls * poll ∧
    (wait_for_completion p mw poll).calls ≤ mw + 1 := by
  have hnt : ∀ j, stepResult (p j) = none := by
    intro j
    obtain ⟨r, hj, hc, hs⟩ := hp j
    rw [hj]
    simp [stepResult, hc, hs]
  have hade : mw ≤ 0 + (mw + 1) * poll := by
    have h1 : (mw + 1) * 1 ≤ (mw + 1) * poll := Nat.mul_le_mul (Nat.le_refl _) hpoll
    rw [Nat.mul_one] at h1
    omega
  refine ⟨waitFrom_nonterm_outcome p mw poll hnt (mw + 1) 0 0, ?_, ?_⟩
  · exact waitFrom_timeout_elapsed p mw poll hnt (mw + 1) 0 0 hade (Nat.zero_le _)
  · have h : (wait_for_completion p mw poll).calls ≤ 0 + (mw + 1) :=
      waitFrom_calls_le p mw poll (mw + 1) 0 0
    omega

/-- C2 witness: with max wait one unit and poll interval one unit, the
always-processing provider yields the timeout outcome. -/
theorem C2_witness :
    (wait_for_completion procTrace 1 1).outcome = timeoutOutcome ∧
    1 ≤ (wait_for_completion procTrace 1 1).calls * 1 ∧
    (wait_for_completion procTrace 1 1).calls ≤ 1 + 1 :=
  C2_always_processing_times_out procTrace 1 1 (by decide)
    (fun _ => ⟨_, rfl, rfl, rfl⟩)

/-- C3: a transport error raised by a status call before the deadline is
swallowed and polling continues: when the first call raises and the second
reports `code=100, status='completed'`, the waiter returns `success=true`
with the response's media fields, after exactly two status calls. -/
theorem C3_transient_error_swallowed (p : Nat → Except String StatusResp)
    (mw poll : Nat) (msg : String) (r : StatusResp)
    (hlt : poll < mw)
    (h0 : p 0 = Except.error msg) (h1 : p 1 = Except.ok r)
    (hc : r.code = some 100)
    (hs : JData.status (r.data.getD {}) = some "completed") :
    wait_for_completion p mw poll =
      ⟨{ success := true, status := "completed",
         video_url := JData.video_url (r.data.getD {}),
         thumbnail_url := JData.thumbnail_url (r.data.getD {}),
         duration := JData.duration (r.data.getD {}) }, 2⟩ := by
  obtain ⟨m, rfl⟩ : ∃ m, mw = m + 1 := ⟨mw - 1, by omega⟩
  have hstep0 : stepResult (p 0) = none := by rw [h0]; rfl
  have hstep1 : stepResult (p 1) =
      some { success := true, status := "completed",
             video_url := JData.video_url (r.data.getD {}),
             thumbnail_url := JData.thumbnail_url (r.data.getD {}),
             duration := JData.duration (r.data.getD {}) } := by
    rw [h1]
    simp [stepResult, hc, hs]
  show waitFrom p (m + 1) poll (m + 2) 0 0 = _
  rw [waitFrom_succ, if_pos (by omega : 0 < m + 1)]
  simp only [hstep0]
  rw [waitFrom_succ, if_pos (by omega : 0 + poll < m + 1)]
  simp only [hstep1]

/-- C3 witness: the flaky provider (first call raises, second completes)
yields a successful outcome after two calls. -/
theorem C3_witness :
    wait_for_completion flakyTrace 2 1 =
      ⟨{ success := true, status := "completed",
         video_url := some "https://cdn.example/v.mp4",
         thumbnail_url := some "https://cdn.example/t.jpg",
         duration := some 8 }, 2⟩ :=
  C3_transient_error_swallowed flakyTrace 2 1 "connection reset" _
    (by decide) rfl rfl rfl rfl

/-- C4 counterexample: a status response with `status='failed'` and the error
field equal to the plain string `"x"` (the claim's own example) does NOT make
the waiter return `success=false, error="x"` immediately: `views.py` line 195
calls `.get('message', ...)` on the string, the `AttributeError` is caught by
the loop's `except`, polling continues (2 calls with `max_wait=2`), and the
run ends in the timeout outcome instead. -/
theorem C4_counterexample :
    (wait_for_completion failedStrTrace 2 1).outcome.status = "timeout" ∧
    (wait_for_completion failedStrTrace 2 1).outcome.error ≠ some "x" ∧
    (wait_for_completion failedStrTrace 2 1).calls = 2 := by decide

/-- C4 (amended): when a status response reports `status='failed'` with an
error OBJECT carrying message `m`, the waiter immediately returns
`success=false` with error `m` after that single status call; an error field
that is a plain string instead raises inside the loop body and is swallowed
like a transport error, so polling continues. -/
theorem C4_failed_with_error_object_immediate (p : Nat → Except String StatusResp)
    (mw poll : Nat) (r : StatusResp) (m : String)
    (hmw : 0 < mw) (h0 : p 0 = Except.ok r) (hc : r.code = some 100)
    (hs : JData.status (r.data.getD {}) = some "failed")
    (he : JData.error (r.data.getD {}) = some (JErr.obj (some m))) :
    wait_for_completion p mw poll =
      ⟨{ success := false, status := "failed", error := some m }, 1⟩ := by
  obtain ⟨n, rfl⟩ : ∃ n, mw = n + 1 := ⟨mw - 1, by omega⟩
  have hstep : stepResult (p 0) =
      some { success := false, status := "failed", error := some m } := by
    rw [h0]
    simp [stepResult, hc, hs, he]
  show waitFrom p (n + 1) poll (n + 2) 0 0 = _
  rw [waitFrom_succ, if_pos (by omega : 0 < n + 1)]
  simp only [hstep]

/-- C4 witness: a failed status with error object message `"x"` returns
`success=false, error="x"` after one call. -/
theorem C4_witness :
    wait_for_completion failedObjTrace 1 1 =
      ⟨{ success := false, status := "failed", error := some "x" }, 1⟩ :=
  C4_failed_with_error_object_immediate failedObjTrace 1 1 _ "x"
    (by decide) rfl rfl rfl rfl

/-- C5: a status response whose application-level `code` differs from the
success code 100 makes the waiter return immediately — one single status
call, no retry — with `success=false` and the provider's `message` (or
`'Unknown error'` when absent), in contrast to transport failures, which are
swallowed and retried (C3). -/
theorem C5_error_code_not_retried (p : Nat → Except String StatusResp)
    (mw poll : Nat) (r : StatusResp)
    (hmw : 0 < mw) (h0 : p 0 = Except.ok r) (hc : r.code ≠ some 100) :
    wait_for_completion p mw poll =
      ⟨{ success := false, status := "failed",
         error := some (r.message.getD "Unknown error") }, 1⟩ := by
  obtain ⟨n, rfl⟩ : ∃ n, mw = n + 1 := ⟨mw - 1, by omega⟩
  have hstep : stepResult (p 0) =
      some { success := false, status := "failed",
             error := some (r.message.getD "Unknown error") } := by
    rw [h0]
    simp only [stepResult]
    rw [if_pos hc]
  show waitFrom p (n + 1) poll (n + 2) 0 0 = _
  rw [waitFrom_succ, if_pos (by omega : 0 < n + 1)]
  simp only [hstep]

/-- C5 witness: a `code=400` response returns the provider's message after a
single status call. -/
theorem C5_witness :
    wait_for_completion badCodeTrace 300 5 =
      ⟨{ success := false, status := "failed", error := some "Bad video id" }, 1⟩ :=
  C5_error_code_not_retried badCodeTrace 300 5 _ (by decide) rfl (by decide)

/-- C6 counterexample: the waiter returns `success=true` for a `completed`
status response even when the response has NO media URL at all — the claim
that `success=true` requires a usable (present, non-empty) media URL fails on
the code, which copies `data.get('video_url')` without checking it. -/
theorem C6_counterexample :
    (wait_for_completion completedNoUrlTrace 1 1).outcome.success = true ∧
    (wait_for_completion completedNoUrlTrace 1 1).outcome.video_url = none := by
  decide

/-- C6 (amended): `success=true` holds only if some provider status response
reported `code=100` with a completed state; the media URL is carried forward
verbatim from that response and may be absent or empty. -/
theorem C6_success_only_from_completed (p : Nat → Except String StatusResp)
    (mw poll : Nat)
    (h : (wait_for_completion p mw poll).outcome.success = true) :
    (wait_for_completion p mw poll).outcome.status = "completed" ∧
    ∃ j r, p j = Except.ok r ∧ r.code = some 100 ∧
      JData.status (r.data.getD {}) = some "completed" ∧
      (wait_for_completion p mw poll).outcome.video_url =
        JData.video_url (r.data.getD {}) := by
  exact waitFrom_success p mw poll (mw + 1) 0 0 h

/-- C6 witness: a successful run against the completed-with-URL provider,
traced back to its completed response. -/
theorem C6_witness :
    (wait_for_completion completedUrlTrace 1 1).outcome.status = "completed" ∧
    ∃ j r, completedUrlTrace j = Except.ok r ∧ r.code = some 100 ∧
      JData.status (r.data.getD {}) = some "completed" ∧
      (wait_for_completion completedUrlTrace 1 1).outcome.video_url =
        JData.video_url (r.data.getD {}) :=
  C6_success_only_from_completed completedUrlTrace 1 1 (by decide)

/-- The length of a string truncation. -/
theorem take_length_min (s : String) (n : Nat) : (s.take n).length = min n s.length := by
  rw [String.take_eq]
  show (s.data.take n).length = min n s.data.length
  exact List.length_take ..

/-- C7: the text placed in the outbound generate payload is the input
truncated with `text[:1500]`: it equals the first-1500-characters slice, its
length never exceeds 1500, and for any prompt longer than 1500 characters
exactly 1500 characters are transmitted. -/
theorem C7_prompt_truncated_to_1500 (text : String) (aid vid : Option String)
    (w h : Nat) :
    (generate_video_payload text aid vid w h).input_text = text.take 1500 ∧
    (generate_video_payload text aid vid w h).input_text.length ≤ 1500 ∧
    (1500 < text.length →
      (generate_video_payload text aid vid w h).input_text.length = 1500) := by
  have hpay : (generate_video_payload text aid vid w h).input_text = text.take 1500 := by
    simp [generate_video_payload]
  refine ⟨hpay, ?_, ?_⟩
  · rw [hpay, take_length_min]
    omega
  · intro hlong
    rw [hpay, take_length_min]
    omega

/-- C7 witness: a 1501-character prompt is transmitted as exactly its first
1500 characters. -/
theorem C7_witness :
    1500 < longText.length ∧
    (generate_video_payload longText none none 1280 720).input_text.length = 1500 :=
  ⟨by show 1500 < (List.replicate 1501 'a').length; rw [List.length_replicate]; omega,
   (C7_prompt_truncated_to_1500 longText none none 1280 720).2.2
     (by show 1500 < (List.replicate 1501 'a').length; rw [List.length_replicate]; omega)⟩

/-- C8: a submit request whose duration lies outside [3, 10] or whose aspect
ratio is not in the enumerated set is rejected by the submit handler with a
client-error response (HTTP 400, `success=false`, a descriptive message) and
zero outbound provider calls. -/
theorem C8_invalid_duration_or_aspect_rejected (api_key : Option String)
    (req : SubmitRequest)
    (h : durationInvalid req.duration = true ∨
         aspectInvalid (SubmitRequest.aspect_ratio req) = true) :
    (submit_handler api_key req).1.success = false ∧
    (submit_handler api_key req).1.http_status = 400 ∧
    ((submit_handler api_key req).1.error).isSome = true ∧
    (submit_handler api_key req).2 = 0 := by
  unfold submit_handler
  split_ifs with h1 h2 h3 h4 h5
  · exact ⟨rfl, rfl, rfl, rfl⟩
  · exact ⟨rfl, rfl, rfl, rfl⟩
  · exact ⟨rfl, rfl, rfl, rfl⟩
  · exact ⟨rfl, rfl, rfl, rfl⟩
  · rcases h with h | h
    · exact absurd h h3
    · exact absurd h h4
  · rcases h with h | h
    · exact absurd h h3
    · exact absurd h h4

/-- C8 witness: duration 99 is rejected with HTTP 400 and no outbound call,
even though the API key is present. -/
theorem C8_witness :
    (submit_handler (some "k") { prompt := some "hello", duration := some 99 }).1.success
      = false ∧
    (submit_handler (some "k") { prompt := some "hello", duration := some 99 }).1.http_status
      = 400 ∧
    ((submit_handler (some "k") { prompt := some "hello", duration := some 99 }).1.error).isSome
      = true ∧
    (submit_handler (some "k") { prompt := some "hello", duration := some 99 }).2 = 0 :=
  C8_invalid_duration_or_aspect_rejected (some "k")
    { prompt := some "hello", duration := some 99 } (Or.inl (by decide))

/-- C9: with the provider API key absent (or blank), every operation —
submit (given a well-formed body that passes the earlier validation steps),
catalog listing (avatars and voices), and the status endpoint — returns its
"not configured" error response with zero outbound provider calls. -/
theorem C9_missing_key_short_circuits (api_key : Option String) (b : GenBody)
    (submitR : Except String GenResult) (trace : Nat → Except String StatusResp)
    (catR catR2 : Option CatalogResp) (stR : Except String StatusResp)
    (hk : isBlank api_key = true)
    (hprompt : isBlank (GenBody.prompt b) = false)
    (hlen : (Option.getD (GenBody.prompt b) "").length ≤ 1500) :
    generate_video_view api_key (some b) submitR trace =
      ({ success := false, http_status := 500,
         error := some "API key not configured. Add HEYGEN_API_KEY to your .env file" }, 0) ∧
    list_avatars_view api_key catR =
      ({ success := false, http_status := 500,
         error := some "API key not configured" }, 0) ∧
    list_voices_view api_key catR2 =
      ({ success := false, http_status := 500,
         error := some "API key not configured" }, 0) ∧
    video_status_view api_key stR =
      ({ success := false, http_status := 500,
         error := some "API key not configured" }, 0) := by
  refine ⟨?_, ?_, ?_, ?_⟩
  · simp [generate_video_view, hprompt, hk, Nat.not_lt.mpr hlen]
  · simp [list_avatars_view, hk]
  · simp [list_voices_view, hk]
  · simp [video_status_view, hk]

/-- C9 witness: with no API key configured, a valid submit body, both catalog
listings, and a status check all short-circuit with zero outbound calls. -/
theorem C9_witness :
    generate_video_view none (some { prompt := some "hi" }) (Except.ok {})
        (fun _ => Except.error "down") =
      ({ success := false, http_status := 500,
         error := some "API key not configured. Add HEYGEN_API_KEY to your .env file" }, 0) ∧
    list_avatars_view none none =
      ({ success := false, http_status := 500,
         error := some "API key not configured" }, 0) ∧
    list_voices_view none none =
      ({ success := false, http_status := 500,
         error := some "API key not configured" }, 0) ∧
    video_status_view none (Except.error "down") =
      ({ success := false, http_status := 500,
         error := some "API key not configured" }, 0) :=
  C9_missing_key_short_circuits none { prompt := some "hi" } (Except.ok {})
    (fun _ => Except.error "down") none none (Except.error "down")
    rfl rfl (by decide)

/-- C10: the client's observable outbound behaviour depends only on the
constructor argument: two clients built with the same `api_key` argument but
different `HYGEN_API_KEY` environment values build identical requests
(headers, endpoints, payloads, parameters) for every operation, the header
carries the constructor argument, and the `self.api_key` field loaded from
the environment variable is never read. -/
theorem C10_env_api_key_never_used (env1 env2 : Option String) (key text : String)
    (aid vid : Option String) (w h : Nat) (video_id : String) :
    list_avatars_request (clientInit env1 key) = list_avatars_request (clientInit env2 key) ∧
    list_voices_request (clientInit env1 key) = list_voices_request (clientInit env2 key) ∧
    generate_video_request (clientInit env1 key) text aid vid w h =
      generate_video_request (clientInit env2 key) text aid vid w h ∧
    check_status_request (clientInit env1 key) video_id =
      check_status_request (clientInit env2 key) video_id ∧
    HGHeaders.x_api_key (HeyGenAPIClient.headers (clientInit env1 key)) = key :=
  ⟨rfl, rfl, rfl, rfl, rfl⟩
